import Mathlib

/-!
Verification of the ETL repository's core compiler-and-executor pair.

The definitions below are a shallow embedding of the Python sources:
  * `app/etl/core.py` — the execution engine (`transform_select`, `join`);
  * `app/compiler/yacc.py` — the grammar actions and the plan builder.
Cell values are dynamically typed; a relation (pandas `DataFrame`) is an
ordered column list plus an ordered row list.  Functions of the helpers
module `app.etl.helpers` (absent from the source tree; only its callers are
present) are modelled from the specification and are marked as such in
their doc comments.
-/

/-- Dynamically typed cell value: string, integer, float, boolean or null
(`app/etl/core.py` works over pandas cells).  Floats are modelled as
rationals so that equality stays decidable. -/
inductive Val where
  | str (s : String)
  | int (n : Int)
  | float (q : Rat)
  | bool (b : Bool)
  | null
deriving DecidableEq, Repr

/-- Numeric view of a value: integers, floats and booleans compare
numerically, as pandas does. -/
def Val.toRat? : Val → Option Rat
  | .int n => some (n : Rat)
  | .float q => some q
  | .bool b => some (if b then 1 else 0)
  | _ => none

/-- Equality of cell values with numeric coercion (`1 == 1.0`). -/
def valEq (a b : Val) : Bool :=
  match a.toRat?, b.toRat? with
  | some x, some y => decide (x = y)
  | _, _ => decide (a = b)

/-- Rank used to order values of different dynamic types. -/
def Val.rank : Val → Nat
  | .null => 0
  | .bool _ => 1
  | .int _ => 2
  | .float _ => 2
  | .str _ => 3

/-- Strict order on cell values: numeric values compare numerically,
strings lexicographically, anything else by type rank. -/
def Val.ltb (a b : Val) : Bool :=
  match a.toRat?, b.toRat? with
  | some x, some y => decide (x < y)
  | _, _ =>
    match a, b with
    | .str s, .str t => decide (s < t)
    | _, _ => decide (a.rank < b.rank)

/-- A relation: ordered named columns plus ordered rows of cells, the
shallow embedding of a pandas `DataFrame`. -/
structure DataFrame where
  cols : List String
  rows : List (List Val)
deriving DecidableEq, Repr

/-- Pandas `DataFrame.empty`: true when either axis has length zero. -/
def DataFrame.empty (df : DataFrame) : Bool :=
  df.rows.isEmpty || df.cols.isEmpty

/-- Cell of a row at a named column (missing column yields null). -/
def cellOf (cols : List String) (row : List Val) (c : String) : Val :=
  match cols.findIdx? (fun x => x == c) with
  | some i => row.getD i .null
  | none => .null

/-- Error taxonomy of the core (section 7 of the specification); each
constructor stands for one raise site in `app/etl/core.py` or a pandas
error surfaced through it. -/
inductive EtlErr where
  | nullInput
  | columnNotInGroupBy
  | mixedAggregationWithoutGroup
  | columnIndexOutOfRange
  | columnNotFound (missing : List String)
  | invalidJoinKind (kind : String)
  | missingJoinColumn (side : String) (column : String) (available : List String)
  | invalidLimit
  | valueError (message : String)
deriving DecidableEq, Repr

/-- Remove exact duplicates keeping the first occurrence — the behaviour
of pandas `drop_duplicates` used by the DISTINCT stage of
`transform_select` (`app/etl/core.py`, lines 97-98). -/
def dedupFirst {α : Type} [DecidableEq α] : List α → List α
  | [] => []
  | a :: l => a :: (dedupFirst l).filter (fun b => b != a)

/-- The DISTINCT stage: `data.drop_duplicates()` over all remaining
columns. -/
def dropDuplicates (df : DataFrame) : DataFrame :=
  ⟨df.cols, dedupFirst df.rows⟩

/-- A row of nulls, used for the unmatched side of an outer-style merge. -/
def nullRow (n : Nat) : List Val := List.replicate n Val.null

/-- Models the external `pandas.DataFrame.merge` call of `join`
(`app/etl/core.py`, line 152): rows are merged by equality of the two key
columns; columns present in both inputs are disambiguated with the
`_left` / `_right` suffixes the source passes. -/
def mergeFrames (df1 df2 : DataFrame) (lc rc : String) (how : String) : DataFrame :=
  let overlap := df1.cols.filter (fun c => df2.cols.contains c)
  let cols :=
    df1.cols.map (fun c => if overlap.contains c then c ++ "_left" else c)
      ++ df2.cols.map (fun c => if overlap.contains c then c ++ "_right" else c)
  let keyL := fun r => cellOf df1.cols r lc
  let keyR := fun r => cellOf df2.cols r rc
  let matchesL := fun r1 => df2.rows.filter (fun r2 => valEq (keyL r1) (keyR r2))
  let matchesR := fun r2 => df1.rows.filter (fun r1 => valEq (keyL r1) (keyR r2))
  let innerRows := df1.rows.flatMap (fun r1 => (matchesL r1).map (fun r2 => r1 ++ r2))
  let leftRows := df1.rows.flatMap (fun r1 =>
    match matchesL r1 with
    | [] => [r1 ++ nullRow df2.cols.length]
    | ms => ms.map (fun r2 => r1 ++ r2))
  let rightRows := df2.rows.flatMap (fun r2 =>
    match matchesR r2 with
    | [] => [nullRow df1.cols.length ++ r2]
    | ms => ms.map (fun r1 => r1 ++ r2))
  let outerRows := leftRows ++
    (df2.rows.filter (fun r2 => (matchesR r2).isEmpty)).map
      (fun r2 => nullRow df1.cols.length ++ r2)
  ⟨cols,
    if how = "inner" then innerRows
    else if how = "left" then leftRows
    else if how = "right" then rightRows
    else outerRows⟩

/-- The valid join kinds of `join` (`app/etl/core.py`, line 118). -/
def validJoinTypes : List String := ["inner", "left", "right", "outer"]

/-- The join operator, translated from `join` in `app/etl/core.py`
(lines 115-157).  The `None`-input check of the source is reflected by the
total `DataFrame` argument types; the empty-input short-circuits return
`pd.DataFrame()` — a relation with no columns and no rows — or a copy of
the non-empty side, before the key-column existence checks run. -/
def join (df1 df2 : DataFrame) (left_col right_col : String) (how : String) :
    Except EtlErr DataFrame :=
  if how ∉ validJoinTypes then
    .error (.invalidJoinKind how)
  else if df1.empty && df2.empty then
    .ok ⟨[], []⟩
  else if df1.empty then
    if how ∈ (["inner", "left"] : List String) then .ok ⟨[], []⟩ else .ok df2
  else if df2.empty then
    if how ∈ (["inner", "right"] : List String) then .ok ⟨[], []⟩ else .ok df1
  else if left_col ∉ df1.cols then
    .error (.missingJoinColumn "left" left_col df1.cols)
  else if right_col ∉ df2.cols then
    .error (.missingJoinColumn "right" right_col df2.cols)
  else
    .ok (mergeFrames df1 df2 left_col right_col how)

/-- The LIMIT / TAIL stage of `transform_select` (`app/etl/core.py`,
lines 101-110): negative counts are rejected, zero yields an empty frame
with the same columns, `limit` keeps the first `n` rows (`head`), any
other operator keeps the last `n` rows (`tail`). -/
def limitOrTailStage (df : DataFrame) (op : String) (n : Int) :
    Except EtlErr DataFrame :=
  if n < 0 then .error .invalidLimit
  else if n = 0 then .ok ⟨df.cols, []⟩
  else if op = "limit" then .ok ⟨df.cols, df.rows.take n.toNat⟩
  else .ok ⟨df.cols, df.rows.drop (df.rows.length - n.toNat)⟩

section DedupLemmas

variable {α : Type} [DecidableEq α]

theorem mem_dedupFirst (x : α) : ∀ (l : List α), x ∈ dedupFirst l ↔ x ∈ l := by
  intro l
  induction l with
  | nil => simp [dedupFirst]
  | cons a l ih =>
    simp only [dedupFirst, List.mem_cons, List.mem_filter, bne_iff_ne, ih]
    constructor
    · rintro (h | ⟨h, _⟩)
      · exact Or.inl h
      · exact Or.inr h
    · rintro (h | h)
      · exact Or.inl h
      · by_cases hx : x = a
        · exact Or.inl hx
        · exact Or.inr ⟨h, hx⟩

theorem dedupFirst_pairwise (l : List α) : (dedupFirst l).Pairwise (· ≠ ·) := by
  induction l with
  | nil => simp [dedupFirst]
  | cons a l ih =>
    simp only [dedupFirst]
    refine List.Pairwise.cons ?_ (ih.filter _)
    intro b hb
    have hbne : b ≠ a := by
      have := (List.mem_filter.mp hb).2
      simpa [bne_iff_ne] using this
    exact hbne.symm

theorem dedupFirst_eq_self {l : List α} (h : l.Pairwise (· ≠ ·)) :
    dedupFirst l = l := by
  induction l with
  | nil => simp [dedupFirst]
  | cons a l ih =>
    rcases List.pairwise_cons.mp h with ⟨ha, hl⟩
    have hf : (dedupFirst l).filter (fun b => b != a) = dedupFirst l := by
      refine List.filter_eq_self.mpr ?_
      intro b hb
      have hb2 : b ∈ l := (mem_dedupFirst b l).mp hb
      simpa [bne_iff_ne] using (ha b hb2).symm
    simp only [dedupFirst, ih hl]
    rw [List.filter_eq_self.mpr]
    intro b hb
    simpa [bne_iff_ne] using (ha b hb).symm

theorem dedupFirst_idem (l : List α) :
    dedupFirst (dedupFirst l) = dedupFirst l :=
  dedupFirst_eq_self (dedupFirst_pairwise l)

end DedupLemmas

/-- C9: the distinct stage is idempotent — removing exact duplicate rows
(keeping first occurrences) twice yields the same relation as doing it
once. -/
theorem c9_distinct_idempotent (df : DataFrame) :
    dropDuplicates (dropDuplicates df) = dropDuplicates df := by
  unfold dropDuplicates
  simp [dedupFirst_idem]

/-- C1: empty-input short-circuit rules of `join` for every valid join
kind, read in the order of the source: both inputs empty gives an empty
result; a single empty left input gives an empty result for kinds inner
and left and a copy of the right input for kinds right and outer; a
single empty right input gives an empty result for kinds inner and right
and a copy of the left input for kinds left and outer. -/
theorem c1_join_empty_rules (df1 df2 : DataFrame) (lc rc how : String)
    (hvalid : how ∈ validJoinTypes) :
    (df1.empty = true → df2.empty = true →
      join df1 df2 lc rc how = .ok ⟨[], []⟩) ∧
    (df1.empty = true → df2.empty = false →
      ((how = "inner" ∨ how = "left") → join df1 df2 lc rc how = .ok ⟨[], []⟩) ∧
      ((how = "right" ∨ how = "outer") → join df1 df2 lc rc how = .ok df2)) ∧
    (df1.empty = false → df2.empty = true →
      ((how = "inner" ∨ how = "right") → join df1 df2 lc rc how = .ok ⟨[], []⟩) ∧
      ((how = "left" ∨ how = "outer") → join df1 df2 lc rc how = .ok df1)) := by
  refine ⟨?_, ?_, ?_⟩
  · intro h1 h2
    simp [join, h1, h2, hvalid]
  · intro h1 h2
    constructor
    · rintro (rfl | rfl) <;> simp [join, h1, h2, validJoinTypes]
    · rintro (rfl | rfl) <;> simp [join, h1, h2, validJoinTypes]
  · intro h1 h2
    constructor
    · rintro (rfl | rfl) <;> simp [join, h1, h2, validJoinTypes]
    · rintro (rfl | rfl) <;> simp [join, h1, h2, validJoinTypes]

/-- Witness for C1 at concrete inputs: an empty left relation joined to a
one-row right relation yields the empty zero-column frame under kind
`inner` and a copy of the right input under kind `outer`. -/
theorem c1_join_empty_rules_witness :
    join ⟨["a"], []⟩ ⟨["b"], [[Val.int 1]]⟩ "a" "b" "inner" = .ok ⟨[], []⟩ ∧
    join ⟨["a"], []⟩ ⟨["b"], [[Val.int 1]]⟩ "a" "b" "outer" =
      .ok ⟨["b"], [[Val.int 1]]⟩ := by
  constructor
  · exact ((c1_join_empty_rules ⟨["a"], []⟩ ⟨["b"], [[Val.int 1]]⟩ "a" "b" "inner"
      (by decide)).2.1 (by decide) (by decide)).1 (Or.inl rfl)
  · exact ((c1_join_empty_rules ⟨["a"], []⟩ ⟨["b"], [[Val.int 1]]⟩ "a" "b" "outer"
      (by decide)).2.1 (by decide) (by decide)).2 (Or.inr rfl)

/-- C10: whenever a short-circuit empty rule makes `join` return an empty
result, that result has zero columns (neither input schema survives), and
no missing-join-column error is raised even when the key columns are
absent from the schemas — the short-circuit returns first. -/
theorem c10_join_short_circuit_schema (df1 df2 : DataFrame)
    (lc rc how : String) (hvalid : how ∈ validJoinTypes)
    (h : (df1.empty = true ∧ df2.empty = true)
      ∨ (df1.empty = true ∧ (how = "inner" ∨ how = "left"))
      ∨ (df2.empty = true ∧ (how = "inner" ∨ how = "right"))) :
    join df1 df2 lc rc how = .ok ⟨[], []⟩ := by
  rcases h with ⟨h1, h2⟩ | ⟨h1, h2⟩ | ⟨h2, h3⟩
  · simp [join, h1, h2, hvalid]
  · rcases h2 with rfl | rfl <;>
      cases hb : df2.empty <;> simp [join, h1, hb, validJoinTypes]
  · cases hb : df1.empty
    · rcases h3 with rfl | rfl <;> simp [join, hb, h2, validJoinTypes]
    · simp [join, hb, h2, hvalid]

/-- Witness for C10: the left input is empty with its key column `zzz`
absent from its (empty) schema, yet `join` succeeds with the zero-column
empty frame instead of raising a missing-join-column error, and the right
input's schema is not carried over. -/
theorem c10_join_short_circuit_schema_witness :
    join ⟨["a"], []⟩ ⟨["b"], [[Val.int 1]]⟩ "zzz" "yyy" "inner" = .ok ⟨[], []⟩ :=
  c10_join_short_circuit_schema ⟨["a"], []⟩ ⟨["b"], [[Val.int 1]]⟩ "zzz" "yyy"
    "inner" (by decide) (Or.inr (Or.inl ⟨by decide, Or.inl rfl⟩))

/-- C8 counterexample: with an empty left relation the short-circuit fires
before the key checks, so `join` does not fail even though the left key
column `x` is absent from the left schema and the kind is valid — the
claim as stated (for every pair of relations) is false. -/
theorem c8_missing_column_counterexample :
    "x" ∉ (⟨[], []⟩ : DataFrame).cols ∧
    "inner" ∈ validJoinTypes ∧
    join ⟨[], []⟩ ⟨["b"], [[Val.int 1]]⟩ "x" "y" "inner" = .ok ⟨[], []⟩ := by
  refine ⟨by decide, by decide, rfl⟩

/-- C8 (amended): for every pair of NON-EMPTY relations and valid join
kind, an absent left key column fails with a missing-join-column error
carrying side `left`, the column and the available columns; when the left
key is present, an absent right key column fails likewise with side
`right`. -/
theorem c8_missing_join_column (df1 df2 : DataFrame) (lc rc how : String)
    (hvalid : how ∈ validJoinTypes)
    (h1 : df1.empty = false) (h2 : df2.empty = false) :
    (lc ∉ df1.cols →
      join df1 df2 lc rc how = .error (.missingJoinColumn "left" lc df1.cols)) ∧
    (lc ∈ df1.cols → rc ∉ df2.cols →
      join df1 df2 lc rc how = .error (.missingJoinColumn "right" rc df2.cols)) := by
  constructor
  · intro hlc
    simp [join, hvalid, h1, h2, hlc]
  · intro hlc hrc
    simp [join, hvalid, h1, h2, hlc, hrc]

/-- Witness for C8: concrete one-row relations; a missing left key
reports side `left` with the left schema, a missing right key reports
side `right` with the right schema. -/
theorem c8_missing_join_column_witness :
    join ⟨["a"], [[Val.int 1]]⟩ ⟨["b"], [[Val.int 2]]⟩ "x" "b" "inner" =
      .error (.missingJoinColumn "left" "x" ["a"]) ∧
    join ⟨["a"], [[Val.int 1]]⟩ ⟨["b"], [[Val.int 2]]⟩ "a" "y" "inner" =
      .error (.missingJoinColumn "right" "y" ["b"]) := by
  constructor
  · exact (c8_missing_join_column ⟨["a"], [[Val.int 1]]⟩ ⟨["b"], [[Val.int 2]]⟩
      "x" "b" "inner" (by decide) (by decide) (by decide)).1 (by decide)
  · exact (c8_missing_join_column ⟨["a"], [[Val.int 1]]⟩ ⟨["b"], [[Val.int 2]]⟩
      "a" "y" "inner" (by decide) (by decide) (by decide)).2 (by decide) (by decide)

/-- C3: the LIMIT / TAIL stage fails with the invalid-limit error for a
negative count; a zero count yields an empty relation with the stage
input's schema; `limit` keeps the first `n` rows and `tail` the last `n`
rows of the current order; and `tail` with `n` at least the row count
returns the relation unchanged. -/
theorem c3_limit_tail (df : DataFrame) (op : String) (n : Int) :
    (n < 0 → limitOrTailStage df op n = .error .invalidLimit) ∧
    (n = 0 → limitOrTailStage df op n = .ok ⟨df.cols, []⟩) ∧
    (0 < n → op = "limit" →
      limitOrTailStage df op n = .ok ⟨df.cols, df.rows.take n.toNat⟩) ∧
    (0 < n → op = "tail" →
      limitOrTailStage df op n =
        .ok ⟨df.cols, df.rows.drop (df.rows.length - n.toNat)⟩) ∧
    (op = "tail" → 0 ≤ n → df.rows.length ≤ n.toNat →
      limitOrTailStage df op n = .ok df) := by
  refine ⟨?_, ?_, ?_, ?_, ?_⟩
  · intro h
    simp [limitOrTailStage, h]
  · intro h
    subst h
    simp [limitOrTailStage]
  · intro h hop
    subst hop
    simp [limitOrTailStage, not_lt.mpr (le_of_lt h), ne_of_gt h]
  · intro h hop
    subst hop
    simp [limitOrTailStage, not_lt.mpr (le_of_lt h), ne_of_gt h]
  · intro hop h0 hlen
    subst hop
    obtain ⟨cols, rows⟩ := df
    rcases eq_or_lt_of_le h0 with h | h
    · have hz : n = 0 := h.symm
      subst hz
      have hr : rows = [] :=
        List.length_eq_zero.mp (Nat.le_zero.mp (by simpa using hlen))
      simp [limitOrTailStage, hr]
    · have hdrop : rows.length - n.toNat = 0 :=
        Nat.sub_eq_zero_of_le (by simpa using hlen)
      simp [limitOrTailStage, not_lt.mpr (le_of_lt h), ne_of_gt h, hdrop]

/-- Witness for C3 at concrete inputs: a negative count fails, a zero
count keeps the schema with no rows, `limit 1` keeps the first row, and
`tail 5` on a two-row relation returns it unchanged. -/
theorem c3_limit_tail_witness :
    limitOrTailStage ⟨["a"], [[Val.int 1], [Val.int 2]]⟩ "limit" (-1) =
      .error .invalidLimit ∧
    limitOrTailStage ⟨["a"], [[Val.int 1], [Val.int 2]]⟩ "tail" 0 =
      .ok ⟨["a"], []⟩ ∧
    limitOrTailStage ⟨["a"], [[Val.int 1], [Val.int 2]]⟩ "limit" 1 =
      .ok ⟨["a"], [[Val.int 1]]⟩ ∧
    limitOrTailStage ⟨["a"], [[Val.int 1], [Val.int 2]]⟩ "tail" 5 =
      .ok ⟨["a"], [[Val.int 1], [Val.int 2]]⟩ := by
  refine ⟨?_, ?_, ?_, ?_⟩
  · exact (c3_limit_tail ⟨["a"], [[Val.int 1], [Val.int 2]]⟩ "limit" (-1)).1
      (by decide)
  · exact (c3_limit_tail ⟨["a"], [[Val.int 1], [Val.int 2]]⟩ "tail" 0).2.1 rfl
  · exact (c3_limit_tail ⟨["a"], [[Val.int 1], [Val.int 2]]⟩ "limit" 1).2.2.1
      (by decide) rfl
  · exact (c3_limit_tail ⟨["a"], [[Val.int 1], [Val.int 2]]⟩ "tail" 5).2.2.2.2
      rfl (by decide) (by decide)

/-- Column reference node of the ORDER BY grammar (`ColumnNameNode` /
`ColumnIndexNode` in `app/compiler/yacc.py`, lines 455-470). -/
inductive CustomColumn where
  | name (s : String)
  | index (i : Int)
deriving DecidableEq, Repr

/-- Payload of an aggregation node: a column node, or the raw wildcard
string that `p_custom_aggregation_column` keeps when the function is not
the counting function. -/
inductive AggColumnPayload where
  | node (c : CustomColumn)
  | rawStar
deriving DecidableEq, Repr

/-- The `AggregationNode` AST node built by `p_custom_aggregation_column`
(`app/compiler/yacc.py`, lines 480-487). -/
structure AggregationNode where
  function : String
  column : AggColumnPayload
deriving DecidableEq, Repr

/-- An ORDER BY parameter is a column reference or an aggregation node
(`p_order_by_param`, `app/compiler/yacc.py`, lines 490-495). -/
inductive OrderParam where
  | col (c : CustomColumn)
  | agg (a : AggregationNode)
deriving DecidableEq, Repr

/-- The `SortingWay` of the AST. -/
inductive SortingWay where
  | asc
  | desc
deriving DecidableEq, Repr

/-- One ORDER BY parameter with its direction. -/
structure OrderByParameter where
  parameter : OrderParam
  way : SortingWay
deriving DecidableEq, Repr

/-- The `OrderByNode`: parameters in priority order. -/
structure OrderByNode where
  parameters : List OrderByParameter
deriving DecidableEq, Repr

/-- An operand of a WHERE comparison: a column reference or a literal
(`p_exp` in `app/compiler/yacc.py`). -/
inductive WExpr where
  | col (s : String)
  | lit (v : Val)
deriving DecidableEq, Repr

/-- WHERE condition tree: comparisons, LIKE, AND/OR/NOT (`p_cond_3` and
`p_conditions_not` in `app/compiler/yacc.py`). -/
inductive WCond where
  | cmp (op : String) (l r : WExpr)
  | wlike (l : WExpr) (pat : String)
  | wand (l r : WCond)
  | wor (l r : WCond)
  | wnot (c : WCond)
deriving DecidableEq, Repr

/-- One select-list item: a plain column string or an aggregation tuple
`(function, column)` as produced by the grammar (`p_columns_base`,
`p_aggregation_function`). -/
inductive SelCol where
  | col (s : String)
  | agg (f : String) (c : String)
deriving DecidableEq, Repr

/-- Whether a select item is an aggregation tuple — the Python
`isinstance(item, tuple)` test. -/
def SelCol.isAgg : SelCol → Bool
  | .col _ => false
  | .agg _ _ => true

/-- The COLUMNS entry of the criteria: the wildcard `__all__` or a list
of items. -/
inductive SelectCols where
  | all
  | list (items : List SelCol)
deriving DecidableEq, Repr

/-- The `are_select_columns_aggregation` flag of `transform_select`
(`app/etl/core.py`, lines 28-30): false for the wildcard, otherwise true
when every item is an aggregation tuple. -/
def are_select_columns_aggregation : SelectCols → Bool
  | .all => false
  | .list items => items.all SelCol.isAgg

/-- The `is_column_number` test of `transform_select` (`app/etl/core.py`,
lines 60-61): a string that starts with `[` and ends with `]`, stated
over the character list so that it evaluates by kernel reduction. -/
def is_column_number (x : String) : Bool :=
  match x.data with
  | [] => false
  | c :: cs => c == '[' && cs.getLast? == some ']'

/-- Numeric value of a decimal digit character. -/
def digitVal? (c : Char) : Option Nat :=
  if c.isDigit then some (c.toNat - 48) else none

/-- Decimal parse of a non-empty all-digit character list. -/
def charsToNat? (cs : List Char) : Option Nat :=
  match cs with
  | [] => none
  | _ =>
    cs.foldl (fun acc c =>
      match acc, digitVal? c with
      | some a, some d => some (a * 10 + d)
      | _, _ => none) (some 0)

/-- Integer parse of a character list, an optional leading minus sign
followed by digits — the model of the Python `int` conversion. -/
def charsToInt? : List Char → Option Int
  | '-' :: cs => (charsToNat? cs).map (fun n => -(n : Int))
  | cs => (charsToNat? cs).map (fun n => (n : Int))

/-- The integer between the brackets of a positional reference — the
`int(col[1:-1])` conversion of the source. -/
def bracketInt (x : String) : Option Int :=
  charsToInt? (x.data.drop 1).dropLast

/-- Modelled from the spec: resolution of a column reference (plain name
or bracketed positional index) to a concrete name against a schema, done
by the absent `app.etl.helpers` module for group keys; the behaviour on
an out-of-range or malformed index is unspecified and modelled as the
reference itself. -/
def resolveColName (cols : List String) (s : String) : String :=
  if is_column_number s then
    match bracketInt s with
    | some i => cols.getD i.toNat s
    | none => s
  else s

/-- Modelled from the spec: `get_unique` of the absent helpers module —
de-duplicate while preserving first-occurrence order. -/
def get_unique (l : List String) : List String := dedupFirst l

/-- Modelled from the spec: `group_by_columns_names` of the absent
helpers module — resolve each group key (index or name) to a concrete
column name. -/
def group_by_columns_names (df : DataFrame) (group : List String) : List String :=
  group.map (resolveColName df.cols)

/-- Modelled from the spec: `convert_select_column_indices_to_name` of
the absent helpers module — resolve positional indices in the select list
to concrete names, keeping aggregation tuples; the wildcard under GROUP
BY is not specified and is modelled as selecting every column. -/
def convert_select_column_indices_to_name (df : DataFrame) : SelectCols → List SelCol
  | .all => df.cols.map SelCol.col
  | .list items => items.map (fun it =>
      match it with
      | .col s => .col (resolveColName df.cols s)
      | .agg f c => .agg f c)

/-- Modelled from the spec: `check_if_column_names_is_in_group_by` of the
absent helpers module — every non-aggregated selected column must be one
of the resolved group keys. -/
def check_if_column_names_is_in_group_by (scols : List SelCol)
    (gcols : List String) : Bool :=
  scols.all (fun it =>
    match it with
    | .col s => gcols.contains s
    | .agg _ _ => true)

/-- Modelled from the spec: the aggregation functions over the dynamic
values of one column; the counting function is named `size`. -/
def aggApply (f : String) (vs : List Val) : Val :=
  if f = "size" then .int vs.length
  else
    let nums := vs.filterMap Val.toRat?
    if f = "sum" then .float (nums.foldl (· + ·) 0)
    else if f = "avg" then
      if nums.length = 0 then .null
      else .float ((nums.foldl (· + ·) 0) / (nums.length : Rat))
    else if f = "min" then
      match nums with
      | [] => .null
      | x :: xs => .float (xs.foldl min x)
    else if f = "max" then
      match nums with
      | [] => .null
      | x :: xs => .float (xs.foldl max x)
    else .null

/-- Values of a column across the rows of a relation; the wildcard column
provides one null per row so that the counting function sees every row. -/
def columnVals (df : DataFrame) (c : String) : List Val :=
  if c = "*" then df.rows.map (fun _ => Val.null)
  else df.rows.map (fun r => cellOf df.cols r c)

/-- The group-key tuple of a row. -/
def keyOf (df : DataFrame) (gcols : List String) (r : List Val) : List Val :=
  gcols.map (cellOf df.cols r)

/-- Output column name of a select item in a grouped result. -/
def aggOutName : SelCol → String
  | .col s => s
  | .agg f c => f ++ "(" ++ c ++ ")"

/-- Modelled from the spec: `apply_groupby` of the absent helpers module —
partition rows by the group-key tuple in first-seen order; each selected
plain column yields the group's key value, each aggregation is computed
over the group's rows. -/
def apply_groupby (df : DataFrame) (scols : List SelCol)
    (gcols : List String) : DataFrame :=
  let keys := dedupFirst (df.rows.map (keyOf df gcols))
  ⟨scols.map aggOutName,
   keys.map (fun k =>
     let groupRows := df.rows.filter (fun r => keyOf df gcols r == k)
     scols.map (fun sc =>
       match sc with
       | .col s =>
         match gcols.findIdx? (fun x => x == s) with
         | some i => k.getD i .null
         | none => .null
       | .agg f c =>
         aggApply f
           (if c = "*" then groupRows.map (fun _ => Val.null)
            else groupRows.map (fun r => cellOf df.cols r c))))⟩

/-- Modelled from the spec: the sort key one ORDER BY parameter extracts
from a row; an aggregation parameter is only meaningful over a grouped
result, where it names its output column. -/
def orderParamKey (cols : List String) (p : OrderParam) (r : List Val) : Val :=
  match p with
  | .col (.name s) => cellOf cols r s
  | .col (.index i) => r.getD i.toNat .null
  | .agg a =>
    match a.column with
    | .node (.name s) => cellOf cols r (a.function ++ "(" ++ s ++ ")")
    | .node (.index i) => r.getD i.toNat .null
    | .rawStar => cellOf cols r (a.function ++ "(*)")

/-- Lexicographic row comparison over the ORDER BY parameters, applied in
priority order, each with its own direction. -/
def rowLe (cols : List String) : List OrderByParameter → List Val → List Val → Bool
  | [], _, _ => true
  | p :: ps, r1, r2 =>
    let k1 := orderParamKey cols p.parameter r1
    let k2 := orderParamKey cols p.parameter r2
    let lt := match p.way with
      | .asc => Val.ltb k1 k2
      | .desc => Val.ltb k2 k1
    let gt := match p.way with
      | .asc => Val.ltb k2 k1
      | .desc => Val.ltb k1 k2
    if lt then true else if gt then false else rowLe cols ps r1 r2

/-- Insertion of an element into a sorted list: it lands after every
element less-or-equal to it. -/
def insertSorted {α : Type} (le : α → α → Bool) (x : α) : List α → List α
  | [] => [x]
  | y :: ys => if le y x then y :: insertSorted le x ys else x :: y :: ys

/-- Stable insertion sort: elements are inserted in input order, each one
landing after the already-placed elements less-or-equal to it, so tied
elements keep their input order — the stability the ordering rule of the
specification requires. -/
def sortRowsBy {α : Type} (le : α → α → Bool) (l : List α) : List α :=
  l.foldl (fun acc x => insertSorted le x acc) []

/-- Modelled from the spec: `apply_order_by_without_groupby` of the
absent helpers module — the stable multi-key sort of the raw rows by the
ORDER BY parameters. -/
def apply_order_by_without_groupby (df : DataFrame) (ob : OrderByNode) : DataFrame :=
  ⟨df.cols, sortRowsBy (rowLe df.cols ob.parameters) df.rows⟩

/-- Modelled from the spec: `apply_groupby_with_order` of the absent
helpers module — group as in `apply_groupby`, then apply the ORDER BY to
the grouped/aggregated result instead of the raw rows. -/
def apply_groupby_with_order (df : DataFrame) (scols : List SelCol)
    (gcols : List String) (ob : OrderByNode) : DataFrame :=
  let g := apply_groupby df scols gcols
  ⟨g.cols, sortRowsBy (rowLe g.cols ob.parameters) g.rows⟩

/-- SQL LIKE matching with the % (any run) and _ (any one character)
wildcards, over the pattern and the subject. -/
def likeMatch : List Char → List Char → Bool
  | [], [] => true
  | [], _ :: _ => false
  | '%' :: ps, [] => likeMatch ps []
  | '%' :: ps, c :: cs => likeMatch ps (c :: cs) || likeMatch ('%' :: ps) cs
  | '_' :: _, [] => false
  | '_' :: ps, _ :: cs => likeMatch ps cs
  | _ :: _, [] => false
  | q :: ps, c :: cs => q == c && likeMatch ps cs
termination_by p s => p.length + s.length

/-- Evaluate a WHERE operand over one row: bracketed numeric references
read the cell at that position, other strings read the named column. -/
def evalWExpr (cols : List String) (r : List Val) : WExpr → Val
  | .col s =>
    if is_column_number s then
      match bracketInt s with
      | some i => r.getD i.toNat .null
      | none => cellOf cols r s
    else cellOf cols r s
  | .lit v => v

/-- Comparison operators of the WHERE grammar, with numeric coercion. -/
def evalCmpOp (op : String) (a b : Val) : Bool :=
  if op = "=" then valEq a b
  else if op = "!=" then !valEq a b
  else if op = "<" then Val.ltb a b
  else if op = "<=" then !Val.ltb b a
  else if op = ">" then Val.ltb b a
  else if op = ">=" then !Val.ltb a b
  else false

/-- The string a LIKE subject contributes (non-strings never match). -/
def valToLikeString : Val → String
  | .str s => s
  | _ => ""

/-- Modelled from the spec: evaluation of a WHERE condition tree over one
row — AND/OR/NOT composition, comparisons and LIKE. -/
def evalWCond (cols : List String) (r : List Val) : WCond → Bool
  | .cmp op l rr => evalCmpOp op (evalWExpr cols r l) (evalWExpr cols r rr)
  | .wlike l pat =>
      likeMatch pat.toList (valToLikeString (evalWExpr cols r l)).toList
  | .wand a b => evalWCond cols r a && evalWCond cols r b
  | .wor a b => evalWCond cols r a || evalWCond cols r b
  | .wnot c => !evalWCond cols r c

/-- Modelled from the spec: `apply_filtering` of the absent helpers
module — keep the rows satisfying the condition tree. -/
def apply_filtering (df : DataFrame) (cond : WCond) : DataFrame :=
  ⟨df.cols, df.rows.filter (fun r => evalWCond df.cols r cond)⟩

/-- Resolution of one aggregation tuple in the no-GROUP-BY aggregate
branch of `transform_select` (`app/etl/core.py`, lines 65-77): a
bracketed numeric reference becomes the column at that position, failing
when the index is out of range.  The plain-column case mirrors the Python
indexing `col[0]`, `col[1]` on what would then be a string; the branch
requires every item to be an aggregation tuple, so it is unreachable. -/
def resolveAggCol (df : DataFrame) : SelCol → Except EtlErr (String × String)
  | .agg f cref =>
    if is_column_number cref then
      match bracketInt cref with
      | some i =>
        if i < 0 ∨ (df.cols.length : Int) ≤ i then .error .columnIndexOutOfRange
        else .ok (f, df.cols.getD i.toNat "")
      | none => .error (.valueError cref)
    else .ok (f, cref)
  | .col s => .ok (s.take 1, (s.drop 1).take 1)

/-- Modelled from the spec: `generate_aggregation_row` of the absent
helpers module — one output row whose cells are each aggregation function
applied over the entire relation. -/
def generate_aggregation_row (df : DataFrame)
    (aggs : List (String × String)) : DataFrame :=
  ⟨aggs.map (fun a => a.1 ++ "(" ++ a.2 ++ ")"),
   [aggs.map (fun a => aggApply a.1 (columnVals df a.2))]⟩

/-- Resolution of one plain select column (`app/etl/core.py`, lines
84-93): a bracketed numeric reference becomes the column at that position
(range-checked), other strings pass through.  An aggregation tuple would
be appended verbatim by the Python code and become a pandas tuple key;
its repr models that key (the branch has already rejected mixed lists, so
it is unreachable). -/
def resolvePlainCol (df : DataFrame) : SelCol → Except EtlErr String
  | .col s =>
    if is_column_number s then
      match bracketInt s with
      | some i =>
        if i < 0 ∨ (df.cols.length : Int) ≤ i then .error .columnIndexOutOfRange
        else .ok (df.cols.getD i.toNat "")
      | none => .error (.valueError s)
    else .ok s
  | .agg f c => .ok ("('" ++ f ++ "', '" ++ c ++ "')")

/-- Pandas column selection `data[column_names]`: project the named
columns in the requested order, failing with a key error when any is
missing from the schema. -/
def selectByNames (df : DataFrame) (names : List String) : Except EtlErr DataFrame :=
  let missing := names.filter (fun c => !df.cols.contains c)
  if missing.isEmpty then
    .ok ⟨names, df.rows.map (fun r => names.map (cellOf df.cols r))⟩
  else .error (.columnNotFound missing)

/-- The no-GROUP-BY projection / aggregation branch of `transform_select`
(`app/etl/core.py`, lines 55-94): the wildcard passes the relation
through; a list of aggregation tuples produces the single aggregation
row; a list mixing aggregations with plain columns is rejected; a list of
plain columns is projected. -/
def projectStage (df : DataFrame) (cols : SelectCols) : Except EtlErr DataFrame :=
  match cols with
  | .all => .ok df
  | .list items =>
    if items.all SelCol.isAgg then
      match items.mapM (resolveAggCol df) with
      | .error e => .error e
      | .ok aggs => .ok (generate_aggregation_row df aggs)
    else if items.any SelCol.isAgg then
      .error .mixedAggregationWithoutGroup
    else
      match items.mapM (resolvePlainCol df) with
      | .error e => .error e
      | .ok names => selectByNames df names

/-- The GROUP BY branch of `transform_select` (`app/etl/core.py`, lines
42-53): resolve and de-duplicate the group keys, resolve the select list,
validate that every plain selected column is a group key, then group —
with the ORDER BY applied to the grouped result when present. -/
def groupStage (df : DataFrame) (cols : SelectCols) (group : List String)
    (order : Option OrderByNode) : Except EtlErr DataFrame :=
  let gcols := get_unique (group_by_columns_names df group)
  let scols := convert_select_column_indices_to_name df cols
  if check_if_column_names_is_in_group_by scols gcols then
    match order with
    | some ob => .ok (apply_groupby_with_order df scols gcols ob)
    | none => .ok (apply_groupby df scols gcols)
  else .error .columnNotInGroupBy

/-- The criteria bundle passed to `transform_select`; the GROUP entry is
a list whose emptiness mirrors the Python truthiness test (`None` or a
non-empty list). -/
structure Criteria where
  columns : SelectCols
  distinct : Bool
  filter : Option WCond
  group : List String
  order : Option OrderByNode
  limitOrTail : Option (String × Int)
deriving DecidableEq, Repr

/-- The WHERE stage of `transform_select` (`app/etl/core.py`, lines
33-34). -/
def applyFilterStage (df : DataFrame) : Option WCond → DataFrame
  | some cond => apply_filtering df cond
  | none => df

/-- Stages 1 and 2 of `transform_select` (`app/etl/core.py`, lines
32-39): the WHERE filter, then the pre-group ORDER — applied only when
there is no GROUP BY, an ORDER BY is present and the select list is not
purely aggregations. -/
def preStages (df : DataFrame) (c : Criteria) : DataFrame :=
  let allAgg := are_select_columns_aggregation c.columns
  let d1 := applyFilterStage df c.filter
  match c.order with
  | some ob =>
    if c.group.isEmpty && !allAgg then apply_order_by_without_groupby d1 ob else d1
  | none => d1

/-- Stages 5 and 6 of `transform_select` (`app/etl/core.py`, lines
96-110): DISTINCT and then LIMIT/TAIL, applied to the result of the
group or projection branch (errors propagate unchanged). -/
def postStages (distinct : Bool) (lot : Option (String × Int))
    (r : Except EtlErr DataFrame) : Except EtlErr DataFrame :=
  match r with
  | .error e => .error e
  | .ok d3 =>
    let d4 := if distinct then dropDuplicates d3 else d3
    match lot with
    | none => .ok d4
    | some (op, n) => limitOrTailStage d4 op n

/-- The transform of a SELECT, translated from `transform_select` in
`app/etl/core.py` (lines 22-113): `None`-input check, WHERE filter,
pre-group ORDER, GROUP BY branch or projection/aggregation branch,
DISTINCT, then LIMIT/TAIL. -/
def transform_select (data : Option DataFrame) (c : Criteria) :
    Except EtlErr DataFrame :=
  match data with
  | none => .error .nullInput
  | some df =>
    let d2 := preStages df c
    postStages c.distinct c.limitOrTail
      (if c.group.isEmpty then projectStage d2 c.columns
       else groupStage d2 c.columns c.group c.order)

theorem applyFilterStage_cols (df : DataFrame) (f : Option WCond) :
    (applyFilterStage df f).cols = df.cols := by
  cases f <;> rfl

theorem preStages_cols (df : DataFrame) (c : Criteria) :
    (preStages df c).cols = df.cols := by
  unfold preStages
  cases c.order with
  | none => exact applyFilterStage_cols df c.filter
  | some ob =>
    by_cases h : (c.group.isEmpty && !are_select_columns_aggregation c.columns) = true
    · simp only [h, if_true]
      exact applyFilterStage_cols df c.filter
    · simp only [h, if_false]
      exact applyFilterStage_cols df c.filter

theorem convert_cols_congr (df e : DataFrame) (h : df.cols = e.cols)
    (x : SelectCols) :
    convert_select_column_indices_to_name df x
      = convert_select_column_indices_to_name e x := by
  cases x <;> simp [convert_select_column_indices_to_name, h]

theorem groupnames_cols_congr (df e : DataFrame) (h : df.cols = e.cols)
    (g : List String) :
    group_by_columns_names df g = group_by_columns_names e g := by
  simp [group_by_columns_names, h]

theorem groupStage_error (df : DataFrame) (cols : SelectCols)
    (group : List String) (order : Option OrderByNode) (s : String)
    (hmem : SelCol.col s ∈ convert_select_column_indices_to_name df cols)
    (hnot : s ∉ get_unique (group_by_columns_names df group)) :
    groupStage df cols group order = .error .columnNotInGroupBy := by
  have hchk : check_if_column_names_is_in_group_by
      (convert_select_column_indices_to_name df cols)
      (get_unique (group_by_columns_names df group)) = false := by
    rw [check_if_column_names_is_in_group_by]
    rw [List.all_eq_false]
    refine ⟨SelCol.col s, hmem, ?_⟩
    simpa using hnot
  simp [groupStage, hchk]

/-- The sales relation of the specification's test scenarios:
`sales(region, amount) = [(east,10), (west,5), (east,20)]`. -/
def salesDF : DataFrame :=
  ⟨["region", "amount"],
   [[Val.str "east", Val.int 10],
    [Val.str "west", Val.int 5],
    [Val.str "east", Val.int 20]]⟩

/-- C4: with a GROUP BY present, any non-aggregated selected column whose
resolved name is absent from the resolved, de-duplicated group-key set
makes the transform fail with the column-not-in-group-by error; in
particular `SELECT region FROM sales GROUP BY amount` fails this way. -/
theorem c4_column_not_in_group_by :
    (∀ (df : DataFrame) (c : Criteria) (s : String),
      c.group ≠ [] →
      SelCol.col s ∈ convert_select_column_indices_to_name df c.columns →
      s ∉ get_unique (group_by_columns_names df c.group) →
      transform_select (some df) c = .error .columnNotInGroupBy) ∧
    transform_select (some salesDF)
      { columns := .list [.col "region"], distinct := false, filter := none,
        group := ["amount"], order := none, limitOrTail := none }
      = .error .columnNotInGroupBy := by
  constructor
  · intro df c s hg hmem hnot
    have hge : c.group.isEmpty = false := by
      cases hG : c.group with
      | nil => exact absurd hG hg
      | cons a l => simp
    have hc : (preStages df c).cols = df.cols := preStages_cols df c
    have hmem2 : SelCol.col s
        ∈ convert_select_column_indices_to_name (preStages df c) c.columns := by
      rw [convert_cols_congr (preStages df c) df hc]
      exact hmem
    have hnot2 : s ∉ get_unique (group_by_columns_names (preStages df c) c.group) := by
      rw [groupnames_cols_congr (preStages df c) df hc]
      exact hnot
    have herr := groupStage_error (preStages df c) c.columns c.group c.order s
      hmem2 hnot2
    simp [transform_select, hge, herr, postStages]
  · rfl

/-- Witness for C4: the general rule applied at the concrete sales
relation with select list `[region]` and group key `amount` (via a
bracketed positional group reference, exercising resolution). -/
theorem c4_column_not_in_group_by_witness :
    transform_select (some salesDF)
      { columns := .list [.col "region"], distinct := false, filter := none,
        group := ["[1]"], order := none, limitOrTail := none }
      = .error .columnNotInGroupBy :=
  c4_column_not_in_group_by.1 salesDF
    { columns := .list [.col "region"], distinct := false, filter := none,
      group := ["[1]"], order := none, limitOrTail := none }
    "region" (by decide) (by decide) (by decide)

/-- C5 counterexample: a select list consisting solely of aggregation
expressions for which the transform does NOT produce a single row — the
bracketed index `[3]` exceeds the one-column schema, so the branch fails
with the column-index error; the claim as stated (one row whenever every
selected column is an aggregation) is false. -/
theorem c5_aggregation_counterexample :
    ([SelCol.agg "sum" "[3]"].all SelCol.isAgg = true) ∧
    projectStage ⟨["a"], [[Val.int 1]]⟩ (.list [SelCol.agg "sum" "[3]"])
      = .error .columnIndexOutOfRange := by
  exact ⟨rfl, rfl⟩

/-- C5 (amended): with no GROUP BY and a non-wildcard list, if every
selected column is an aggregation expression and each bracketed
positional index among them is within the schema width, the branch
produces exactly one row whose cells are the aggregation functions
applied over the entire (already filtered) relation; a list mixing an
aggregation with a plain column fails with the mixed-aggregation
error. -/
theorem c5_aggregation_no_group :
    (∀ (df : DataFrame) (items : List SelCol) (aggs : List (String × String)),
      items.all SelCol.isAgg = true →
      items.mapM (resolveAggCol df) = .ok aggs →
      projectStage df (.list items) =
        .ok ⟨aggs.map (fun a => a.1 ++ "(" ++ a.2 ++ ")"),
             [aggs.map (fun a => aggApply a.1 (columnVals df a.2))]⟩) ∧
    (∀ (df : DataFrame) (items : List SelCol),
      items.any SelCol.isAgg = true → items.all SelCol.isAgg = false →
      projectStage df (.list items) = .error .mixedAggregationWithoutGroup) := by
  constructor
  · intro df items aggs hall hres
    simp only [projectStage, hall, if_true, hres]
    rfl
  · intro df items hany hall
    simp [projectStage, hall, hany]

/-- Witness for C5: on a one-column one-row relation, `size(*)` alone
yields the single row `[1]`, and `size(*)` mixed with the plain column
`a` is rejected. -/
theorem c5_aggregation_no_group_witness :
    projectStage ⟨["a"], [[Val.int 7]]⟩ (.list [SelCol.agg "size" "*"])
      = .ok ⟨["size(*)"], [[Val.int 1]]⟩ ∧
    projectStage ⟨["a"], [[Val.int 7]]⟩
      (.list [SelCol.agg "size" "*", SelCol.col "a"])
      = .error .mixedAggregationWithoutGroup := by
  constructor
  · exact c5_aggregation_no_group.1 ⟨["a"], [[Val.int 7]]⟩
      [SelCol.agg "size" "*"] [("size", "*")] rfl rfl
  · exact c5_aggregation_no_group.2 ⟨["a"], [[Val.int 7]]⟩
      [SelCol.agg "size" "*", SelCol.col "a"] rfl rfl

/-- C7: the pre-group sort runs exactly when there is no GROUP BY, an
ORDER BY is present and the selected columns are not purely aggregation
expressions.  The four conjuncts cover every criteria: with a
purely-aggregation select list and no GROUP BY the ORDER BY never
matters (the relation is not sorted before the aggregate stage); with no
GROUP BY, an ORDER BY and a not-purely-aggregation list the transform
equals the pipeline run on the relation sorted right after filtering,
the ORDER BY consumed; with a GROUP BY present the group stage receives
the filtered relation unsorted; and with no ORDER BY the projection
branch likewise receives the filtered relation unsorted — so the sort
appears on no data path other than the claimed one. -/
theorem c7_pre_group_order :
    (∀ (df : DataFrame) (c : Criteria),
      c.group = [] → are_select_columns_aggregation c.columns = true →
      transform_select (some df) c =
        transform_select (some df) { c with order := none }) ∧
    (∀ (df : DataFrame) (c : Criteria) (ob : OrderByNode),
      c.group = [] → c.order = some ob →
      are_select_columns_aggregation c.columns = false →
      transform_select (some df) c =
        transform_select
          (some (apply_order_by_without_groupby (applyFilterStage df c.filter) ob))
          { c with filter := none, order := none }) ∧
    (∀ (df : DataFrame) (c : Criteria),
      c.group ≠ [] →
      transform_select (some df) c =
        postStages c.distinct c.limitOrTail
          (groupStage (applyFilterStage df c.filter) c.columns c.group c.order)) ∧
    (∀ (df : DataFrame) (c : Criteria),
      c.group = [] → c.order = none →
      transform_select (some df) c =
        postStages c.distinct c.limitOrTail
          (projectStage (applyFilterStage df c.filter) c.columns)) := by
  refine ⟨?_, ?_, ?_, ?_⟩
  · intro df c hg hagg
    obtain ⟨cols, dst, flt, grp, ord, lot⟩ := c
    simp only at hg hagg
    subst hg
    cases ord with
    | none => rfl
    | some ob => simp [transform_select, preStages, hagg]
  · intro df c ob hg ho hagg
    obtain ⟨cols, dst, flt, grp, ord, lot⟩ := c
    simp only at hg ho hagg
    subst hg
    subst ho
    simp [transform_select, preStages, hagg, applyFilterStage]
  · intro df c hg
    obtain ⟨cols, dst, flt, grp, ord, lot⟩ := c
    simp only at hg
    cases grp with
    | nil => exact absurd rfl hg
    | cons g gs =>
      cases ord with
      | none => rfl
      | some ob => simp [transform_select, preStages]
  · intro df c hg ho
    obtain ⟨cols, dst, flt, grp, ord, lot⟩ := c
    simp only at hg ho
    subst hg
    subst ho
    rfl

/-- Witness for C7 on a concrete two-row relation: a purely-aggregation
select list makes the ORDER BY irrelevant; a plain select list with an
ORDER BY equals the pipeline on the pre-sorted relation; with a GROUP BY
present the group stage receives the unsorted relation; and with no
ORDER BY the projection receives the unsorted relation. -/
theorem c7_pre_group_order_witness :
    transform_select (some ⟨["a"], [[Val.int 2], [Val.int 1]]⟩)
      { columns := .list [.agg "size" "*"], distinct := false, filter := none,
        group := [],
        order := some ⟨[⟨.col (.name "a"), .asc⟩]⟩, limitOrTail := none } =
    transform_select (some ⟨["a"], [[Val.int 2], [Val.int 1]]⟩)
      { columns := .list [.agg "size" "*"], distinct := false, filter := none,
        group := [], order := none, limitOrTail := none } ∧
    transform_select (some ⟨["a"], [[Val.int 2], [Val.int 1]]⟩)
      { columns := .list [.col "a"], distinct := false, filter := none,
        group := [],
        order := some ⟨[⟨.col (.name "a"), .asc⟩]⟩, limitOrTail := none } =
    transform_select
      (some (apply_order_by_without_groupby
        (applyFilterStage ⟨["a"], [[Val.int 2], [Val.int 1]]⟩ none)
        ⟨[⟨.col (.name "a"), .asc⟩]⟩))
      { columns := .list [.col "a"], distinct := false, filter := none,
        group := [], order := none, limitOrTail := none } ∧
    transform_select (some ⟨["a"], [[Val.int 2], [Val.int 1]]⟩)
      { columns := .list [.col "a"], distinct := false, filter := none,
        group := ["a"],
        order := some ⟨[⟨.col (.name "a"), .asc⟩]⟩, limitOrTail := none } =
    postStages false none
      (groupStage (applyFilterStage ⟨["a"], [[Val.int 2], [Val.int 1]]⟩ none)
        (.list [.col "a"]) ["a"]
        (some ⟨[⟨.col (.name "a"), .asc⟩]⟩)) ∧
    transform_select (some ⟨["a"], [[Val.int 2], [Val.int 1]]⟩)
      { columns := .list [.col "a"], distinct := false, filter := none,
        group := [], order := none, limitOrTail := none } =
    postStages false none
      (projectStage (applyFilterStage ⟨["a"], [[Val.int 2], [Val.int 1]]⟩ none)
        (.list [.col "a"])) := by
  refine ⟨?_, ?_, ?_, ?_⟩
  · exact c7_pre_group_order.1 ⟨["a"], [[Val.int 2], [Val.int 1]]⟩
      { columns := .list [.agg "size" "*"], distinct := false, filter := none,
        group := [],
        order := some ⟨[⟨.col (.name "a"), .asc⟩]⟩, limitOrTail := none }
      rfl rfl
  · exact c7_pre_group_order.2.1 ⟨["a"], [[Val.int 2], [Val.int 1]]⟩
      { columns := .list [.col "a"], distinct := false, filter := none,
        group := [],
        order := some ⟨[⟨.col (.name "a"), .asc⟩]⟩, limitOrTail := none }
      ⟨[⟨.col (.name "a"), .asc⟩]⟩ rfl rfl rfl
  · exact c7_pre_group_order.2.2.1 ⟨["a"], [[Val.int 2], [Val.int 1]]⟩
      { columns := .list [.col "a"], distinct := false, filter := none,
        group := ["a"],
        order := some ⟨[⟨.col (.name "a"), .asc⟩]⟩, limitOrTail := none }
      (by decide)
  · exact c7_pre_group_order.2.2.2 ⟨["a"], [[Val.int 2], [Val.int 1]]⟩
      { columns := .list [.col "a"], distinct := false, filter := none,
        group := [], order := none, limitOrTail := none }
      rfl rfl

/-- An ON condition as built by the grammar (`app/compiler/yacc.py`,
lines 221-238): a leaf equality of two qualified column strings
(`p_on_conditions_base`) or an AND/OR composite of two sub-conditions
(`p_on_conditions_complex`). -/
inductive OnCond where
  | leaf (left right : String)
  | comp (op : String) (left right : OnCond)
deriving DecidableEq, Repr

/-- The Python `repr` of the condition dictionaries the grammar actions
build: `p_on_conditions_base` produces a dict with keys `left`, `right`;
`p_on_conditions_complex` one with keys `operator`, `left`, `right` — in
insertion order, as rendered by an f-string. -/
def condPyRepr : OnCond → String
  | .leaf l r =>
      "\x7b'left': '" ++ l ++ "', 'right': '" ++ r ++ "'\x7d"
  | .comp op a b =>
      "\x7b'operator': '" ++ op ++ "', 'left': " ++ condPyRepr a
        ++ ", 'right': " ++ condPyRepr b ++ "\x7d"

/-- The key-column arguments the plan builder passes to the generated
`etl.join` call (`p_select`, `app/compiler/yacc.py`, lines 99-105): it
renders `on_condition['left']` and `on_condition['right']` into the code
text, so a leaf condition contributes its two column strings, while a
composite condition contributes the reprs of its two top-level
sub-condition dictionaries. -/
def joinOnArgs : OnCond → String × String
  | .leaf l r => (l, r)
  | .comp _ a b => (condPyRepr a, condPyRepr b)

/-- The leaf equalities (left-column / right-column pairs) contained in a
condition tree. -/
def condLeafPairs : OnCond → List (String × String)
  | .leaf l r => [(l, r)]
  | .comp _ a b => condLeafPairs a ++ condLeafPairs b

/-- C2 counterexample: for the composite condition
`a.x = b.y AND c.u = d.v` the emitted join key pair is not a leaf
equality of the condition tree, and changing the second predicate changes
the generated plan — so the remaining predicates are neither the dropped
remainder of a single extracted leaf nor without effect. -/
theorem c2_composite_on_counterexample :
    joinOnArgs (OnCond.comp "AND" (.leaf "a.x" "b.y") (.leaf "c.u" "d.v"))
      ∉ condLeafPairs (OnCond.comp "AND" (.leaf "a.x" "b.y") (.leaf "c.u" "d.v")) ∧
    joinOnArgs (OnCond.comp "AND" (.leaf "a.x" "b.y") (.leaf "c.u" "d.v"))
      ≠ joinOnArgs (OnCond.comp "AND" (.leaf "a.x" "b.y") (.leaf "c.u" "e.w")) := by
  exact ⟨by decide, by decide⟩

/-- C2 (amended): for a composite ON condition the plan builder raises no
error and emits a join step whose left and right key arguments are the
Python string renderings of the two top-level subtrees of the condition
tree — not a single leaf equality extracted from it. -/
theorem c2_composite_on_join_args (op : String) (a b : OnCond) :
    joinOnArgs (.comp op a b) = (condPyRepr a, condPyRepr b) := rfl

/-- A parse failure (`ParserError` in `app.core.errors`) with the message
and position data the grammar action supplies. -/
structure ParserError where
  message : String
  token : String
  line : Int
  position : Int
deriving DecidableEq, Repr

/-- The select-list aggregation action `p_aggregation_function`
(`app/compiler/yacc.py`, lines 401-411): builds the `(function, column)`
tuple, then raises a parse error when the argument is the wildcard and
the function is not `size`. -/
def p_aggregation_function (func : String) (arg : String) :
    Except ParserError (String × String) :=
  if arg = "*" ∧ func ≠ "size" then
    .error ⟨"Syntax error: You cannot use * with aggregation functions except SIZE(*)",
            "*", -1, -1⟩
  else .ok (func, arg)

/-- The argument of an ORDER BY aggregation: a custom column node or the
wildcard token. -/
inductive OrderAggArg where
  | col (c : CustomColumn)
  | star
deriving DecidableEq, Repr

/-- The ORDER BY aggregation action `p_custom_aggregation_column`
(`app/compiler/yacc.py`, lines 480-487): wraps `size(*)` as a
column-name node, keeps the raw wildcard for every other function, and
never raises. -/
def p_custom_aggregation_column (func : String) (arg : OrderAggArg) :
    Except ParserError AggregationNode :=
  match arg with
  | .col c => .ok ⟨func, .node c⟩
  | .star =>
    if func = "size" then .ok ⟨func, .node (.name "*")⟩
    else .ok ⟨func, .rawStar⟩

/-- C6 counterexample: in the ORDER BY parameter list, the aggregation
`avg(*)` over the wildcard parses successfully (the action returns a node
keeping the raw wildcard instead of failing), so the parse-time wildcard
validation does not happen in every position where an aggregation over
the wildcard can appear. -/
theorem c6_wildcard_counterexample :
    p_custom_aggregation_column "avg" .star = .ok ⟨"avg", .rawStar⟩ := rfl

/-- C6 (amended): in the select list an aggregation over the wildcard is
a parse-time syntax error unless the function is the counting function
`size`; in the ORDER BY parameter list no such validation occurs — the
action always succeeds, wrapping `size(*)` as a column-name node and
keeping the raw wildcard for any other function. -/
theorem c6_wildcard_validation :
    (∀ (f : String), f ≠ "size" →
      p_aggregation_function f "*" =
        .error ⟨"Syntax error: You cannot use * with aggregation functions except SIZE(*)",
                "*", -1, -1⟩) ∧
    (∀ (f arg : String), arg ≠ "*" ∨ f = "size" →
      p_aggregation_function f arg = .ok (f, arg)) ∧
    (∀ (f : String) (a : OrderAggArg),
      (p_custom_aggregation_column f a).isOk = true) := by
  refine ⟨?_, ?_, ?_⟩
  · intro f hf
    simp [p_aggregation_function, hf]
  · intro f arg h
    rcases h with h | h
    · simp [p_aggregation_function, h]
    · simp [p_aggregation_function, h]
  · intro f a
    cases a with
    | col c => rfl
    | star =>
      by_cases h : f = "size" <;>
        simp [p_custom_aggregation_column, h, Except.isOk, Except.toBool]

/-- Witness for C6: `avg(*)` in the select list fails at parse time,
`size(*)` succeeds there, and `avg(*)` in the ORDER BY parameter list
parses without error. -/
theorem c6_wildcard_validation_witness :
    p_aggregation_function "avg" "*" =
      .error ⟨"Syntax error: You cannot use * with aggregation functions except SIZE(*)",
              "*", -1, -1⟩ ∧
    p_aggregation_function "size" "*" = .ok ("size", "*") ∧
    (p_custom_aggregation_column "avg" .star).isOk = true := by
  refine ⟨?_, ?_, ?_⟩
  · exact c6_wildcard_validation.1 "avg" (by decide)
  · exact c6_wildcard_validation.2.1 "size" "*" (Or.inr rfl)
  · exact c6_wildcard_validation.2.2 "avg" .star
